import Mathlib

/-!
Verification of the movie recommender core (recommender.py and main.py).

The development embeds the preference store operations (like_movie,
dislike_movie, undislike_movie), the content based recommendation pipeline
(recommend_content_based) and the catalog search (search_movies together
with its endpoint wrapper) as executable Lean definitions, and proves the
behavioural properties stated for them.

Modelling conventions:
* tmdb ids are integers, user ids are strings, feature vectors are rational
  valued vectors of a fixed dimension n (a row of the TF-IDF matrix).
* each Mongo collection is a list of documents in collection order;
  update_one with upsert on the full (user_id, tmdb_id) filter either leaves
  the collection unchanged (the matched document is set to identical field
  values) or appends a fresh document, and delete_one removes the first
  matching document.
* raising ValueError is modelled as an error result paired with the
  unchanged store; message texts are kept close to the source with emoji
  and punctuation elided.
* the per row cosine similarity is a call into an external numerical
  library (scikit-learn cosine_similarity); it is taken as a parameter sim
  of the pipeline, since no claim depends on its numeric definition.
* pandas sort_values(by score, ascending=False) reverses the rows and
  their indices, computes a stable ascending argsort of the reversed
  values, and reverses the resulting indexer again, so the descending
  sort is stable: rows with equal scores keep their original order. The
  underlying ascending argsort is modelled as a stable insertion sort.
-/

namespace RecommenderApi

/-- Feature vector of dimension n: one row of the TF-IDF matrix, aligned by
position with the catalog. -/
abbrev Vec (n : Nat) := Fin n → ℚ

/-- A row of the in-memory catalog movies_df, loaded once at startup. -/
structure Movie (n : Nat) where
  tmdb_id : Int
  title : String
  genres : String
  poster_path : String
  release_date : String
  overview : String
  vote_count : Int
  vote_average : ℚ
  vec : Vec n
deriving DecidableEq

/-- A document of a preference collection: the fields user_id and tmdb_id. -/
structure Edge where
  user_id : String
  tmdb_id : Int
deriving DecidableEq

/-- The preference store: the likes and dislikes collections, each a list of
documents in collection order. -/
structure PrefState where
  likes : List Edge
  dislikes : List Edge
deriving DecidableEq

/-- Translation of update_one on the filter (user_id, tmdb_id) with
upsert=True: a matched document is set to identical field values, leaving
the collection unchanged; with no match a fresh document is appended. -/
def upsertOne (l : List Edge) (u : String) (t : Int) : List Edge :=
  if (⟨u, t⟩ : Edge) ∈ l then l else l ++ [⟨u, t⟩]

/-- Translation of delete_one on the filter (user_id, tmdb_id): removes the
first matching document, if any. -/
def deleteOne (l : List Edge) (u : String) (t : Int) : List Edge :=
  l.erase ⟨u, t⟩

/-- Translation of find on the filter (user_id: u): every document carrying
this user_id, in collection order. The query value may be null (None in the
caller), which matches no stored document, since every document is written
with a string user_id. -/
def findUser (l : List Edge) (u : Option String) : List Edge :=
  match u with
  | some v => l.filter (fun e => e.user_id == v)
  | none => []

/-- Membership test of a tmdb_id in the catalog id column
(recommender.py lines 25, 51 and 75). -/
def movieExists {n : Nat} (cat : List (Movie n)) (t : Int) : Bool :=
  cat.any (fun m => m.tmdb_id == t)

/-- Title of the first catalog row carrying the given tmdb_id (iloc[0] of
the filtered frame). -/
def movieTitle {n : Nat} (cat : List (Movie n)) (t : Int) : String :=
  (((cat.filter (fun m => m.tmdb_id == t)).head?).map Movie.title).getD ("")

/-- Error message of the ValueError raised for an unknown tmdb_id. -/
def tmdbNotFoundMsg : String := "TMDB ID not found in movies."

/-- Translation of like_movie (recommender.py lines 23 to 43): validate the
id, upsert the like document, delete any dislike document for the pair. -/
def like_movie {n : Nat} (cat : List (Movie n)) (s : PrefState)
    (user_id : String) (tmdb_id : Int) : Except String String × PrefState :=
  if movieExists cat tmdb_id then
    (Except.ok (("User ") ++ user_id ++ (" liked ") ++ movieTitle cat tmdb_id),
      { likes := upsertOne s.likes user_id tmdb_id,
        dislikes := deleteOne s.dislikes user_id tmdb_id })
  else
    (Except.error tmdbNotFoundMsg, s)

/-- Translation of dislike_movie (recommender.py lines 49 to 66): validate
the id, delete any like document for the pair, upsert the dislike
document. -/
def dislike_movie {n : Nat} (cat : List (Movie n)) (s : PrefState)
    (user_id : String) (tmdb_id : Int) : Except String String × PrefState :=
  if movieExists cat tmdb_id then
    (Except.ok (("User ") ++ user_id ++ (" disliked ") ++ movieTitle cat tmdb_id),
      { likes := deleteOne s.likes user_id tmdb_id,
        dislikes := upsertOne s.dislikes user_id tmdb_id })
  else
    (Except.error tmdbNotFoundMsg, s)

/-- Translation of undislike_movie (recommender.py lines 71 to 87): validate
the id, delete the dislike document for the pair; a deleted_count of zero
yields an informational ok message, not an error. -/
def undislike_movie {n : Nat} (cat : List (Movie n)) (s : PrefState)
    (user_id : String) (tmdb_id : Int) : Except String String × PrefState :=
  if movieExists cat tmdb_id then
    if (⟨user_id, tmdb_id⟩ : Edge) ∈ s.dislikes then
      (Except.ok (("User ") ++ user_id ++ (" undid dislike for ") ++ movieTitle cat tmdb_id),
        { s with dislikes := deleteOne s.dislikes user_id tmdb_id })
    else
      (Except.ok (("info: ") ++ movieTitle cat tmdb_id ++ (" was not in the disliked list of user ") ++ user_id),
        { s with dislikes := deleteOne s.dislikes user_id tmdb_id })
  else
    (Except.error tmdbNotFoundMsg, s)

/-- Liked tmdb ids of a user: the tmdb_id field of each matching document of
the likes collection (recommender.py lines 95 and 98). -/
def likedTmdbIds (s : PrefState) (u : Option String) : List Int :=
  (findUser s.likes u).map Edge.tmdb_id

/-- Disliked tmdb ids of a user: the tmdb_id field of each matching document
of the dislikes collection (recommender.py lines 96 and 99). -/
def dislikedTmdbIds (s : PrefState) (u : Option String) : List Int :=
  (findUser s.dislikes u).map Edge.tmdb_id

/-- Translation of numpy mean(axis=0): pointwise sum of the rows divided by
the number of rows. The mean of zero rows is the zero vector (0 divided by 0
being 0 in ℚ). -/
def vmean {n : Nat} (vs : List (Vec n)) : Vec n :=
  fun i => (vs.map (fun v => v i)).sum / (vs.length : ℚ)

/-- Catalog rows whose tmdb_id lies in the given id list, in catalog order
(the isin based row selection of recommender.py lines 113 and 114). -/
def rowsWithIds {n : Nat} (cat : List (Movie n)) (ids : List Int) : List (Movie n) :=
  cat.filter (fun m => ids.contains m.tmdb_id)

/-- Translation of the user profile computation (recommender.py lines 113 to
125): the mean of the liked rows, minus the mean of the disliked rows when
the disliked row selection is nonempty. -/
def userProfile {n : Nat} (cat : List (Movie n)) (likedIds dislikedIds : List Int) : Vec n :=
  let likedVecs := (rowsWithIds cat likedIds).map Movie.vec
  let base := vmean likedVecs
  let dislikedVecs := (rowsWithIds cat dislikedIds).map Movie.vec
  if dislikedVecs.isEmpty then base
  else fun i => base i - vmean dislikedVecs i

/-- Specification side definition of steps 2 and 3 of the algorithm: the
centroid (arithmetic mean) of the feature vectors of the catalog movies
whose tmdb_id lies in the given id set. -/
def centroidOf {n : Nat} (cat : List (Movie n)) (ids : List Int) : Vec n :=
  vmean ((rowsWithIds cat ids).map Movie.vec)

/-- Translation of pandas sort_values(by score, ascending=False)
(recommender.py line 141): nargsort reverses the rows before taking a
stable ascending argsort and reverses the resulting indexer afterwards,
which yields a stable descending sort (rows with equal scores keep their
original order); the ascending argsort is modelled as a stable insertion
sort. -/
def sortByScoreDesc {n : Nat} (l : List (Movie n × ℚ)) : List (Movie n × ℚ) :=
  (l.reverse.insertionSort (fun a b => a.2 ≤ b.2)).reverse

/-- Translation of the page slice iloc[(page-1)*page_size : page*page_size]
(recommender.py lines 148 to 150 and 242 to 244). -/
def paginate {α : Type} (page pageSize : Nat) (l : List α) : List α :=
  (l.drop ((page - 1) * pageSize)).take pageSize

/-- Translation of math.ceil(total / page_size) if total > 0 else 0
(recommender.py lines 145 and 240). -/
def totalPagesOf (total pageSize : Nat) : Nat :=
  if 0 < total then (total + pageSize - 1) / pageSize else 0

/-- Output row of a result: the selected columns of a catalog row, the
feature vector and vote data being dropped. -/
structure MovieRow where
  tmdb_id : Int
  title : String
  genres : String
  poster_path : String
  release_date : String
  overview : String
deriving DecidableEq

/-- Column selection applied to result rows. -/
def Movie.toRow {n : Nat} (m : Movie n) : MovieRow :=
  ⟨m.tmdb_id, m.title, m.genres, m.poster_path, m.release_date, m.overview⟩

/-- Response shape of recommend_content_based: each movie row carries its
score. -/
structure RecResult where
  movies : List (MovieRow × ℚ)
  total_results : Nat
  total_pages : Nat
  page : Nat
  page_size : Nat
deriving DecidableEq

/-- Response shape of search_movies. -/
structure SearchResult where
  movies : List MovieRow
  total_results : Nat
  total_pages : Nat
  page : Nat
  page_size : Nat
deriving DecidableEq

/-- Scored catalog rows remaining after excluding the liked and disliked
ids, in catalog order (recommender.py lines 128 to 138). The per row score
is the similarity of the row vector against the user profile, computed by
the external library call taken as the parameter sim. -/
def scoredRemaining {n : Nat} (sim : Vec n → Vec n → ℚ) (cat : List (Movie n))
    (likedIds dislikedIds : List Int) : List (Movie n × ℚ) :=
  (cat.map (fun m => (m, sim (userProfile cat likedIds dislikedIds) m.vec))).filter
    (fun p => !((likedIds ++ dislikedIds).contains p.1.tmdb_id))

/-- The ranked candidate list of a recommendation: the remaining scored rows
sorted by score (recommender.py lines 140 and 141). -/
def recommendCandidates {n : Nat} (sim : Vec n → Vec n → ℚ) (cat : List (Movie n))
    (likedIds dislikedIds : List Int) : List (Movie n × ℚ) :=
  sortByScoreDesc (scoredRemaining sim cat likedIds dislikedIds)

/-- Translation of recommend_content_based (recommender.py lines 94 to 160).
The body raises nothing; the Except shape mirrors the fallible signature of
the module, where ValueError is the error channel the endpoints catch. -/
def recommend_content_based {n : Nat} (sim : Vec n → Vec n → ℚ) (cat : List (Movie n))
    (s : PrefState) (user_id : String) (page page_size : Nat) : Except String RecResult :=
  let likedIds := likedTmdbIds s (some user_id)
  let dislikedIds := dislikedTmdbIds s (some user_id)
  if likedIds.isEmpty then
    Except.ok ⟨[], 0, 0, page, page_size⟩
  else
    let sorted := recommendCandidates sim cat likedIds dislikedIds
    Except.ok ⟨(paginate page page_size sorted).map (fun p => (p.1.toRow, p.2)),
      sorted.length, totalPagesOf sorted.length page_size, page, page_size⟩

/-- Movie rows of a recommendation response, empty for an error response. -/
def resultMovies : Except String RecResult → List (MovieRow × ℚ)
  | Except.ok r => r.movies
  | Except.error _ => []

/-- Substring test on character lists: the needle occurs at some position of
the haystack. -/
def charsContain (hay needle : List Char) : Bool :=
  (needle.isPrefixOf hay) ||
    match hay with
    | [] => false
    | _ :: t => charsContain t needle

/-- Substring test on strings (the Python in operator on str). -/
def strContains (s sub : String) : Bool :=
  charsContain s.data sub.data

/-- Lowercasing of a string (str.lower). -/
def lowerStr (s : String) : String :=
  ⟨s.data.map Char.toLower⟩

/-- Catalog rows matching the query: case insensitive substring match
against title or genres (recommender.py lines 172 to 182). -/
def searchMatches {n : Nat} (cat : List (Movie n)) (query : String) : List (Movie n) :=
  let q := lowerStr query
  cat.filter (fun m => strContains (lowerStr m.title) q || strContains (lowerStr m.genres) q)

/-- Rows remaining after the scope branch of search_movies (recommender.py
lines 185 to 236): the local user_id variable is set to None, the liked and
disliked branches are pass statements, and the recommended branch excludes
the ids found for the null user (an empty set, since no stored document has
a null user_id). -/
def searchScoped {n : Nat} (cat : List (Movie n)) (s : PrefState)
    (query scope : String) : List (Movie n) :=
  let results := searchMatches cat query
  if scope == ("liked") || scope == ("disliked") || scope == ("recommended") then
    let user_id : Option String := none
    if scope == ("liked") then results
    else if scope == ("disliked") then results
    else
      let likedIds := likedTmdbIds s user_id
      let dislikedIds := dislikedTmdbIds s user_id
      results.filter (fun m => !((likedIds ++ dislikedIds).contains m.tmdb_id))
  else results

/-- Translation of search_movies (recommender.py lines 167 to 254). -/
def search_movies {n : Nat} (cat : List (Movie n)) (s : PrefState)
    (query scope : String) (page page_size : Nat) : SearchResult :=
  let results := searchScoped cat s query scope
  ⟨(paginate page page_size results).map Movie.toRow,
    results.length, totalPagesOf results.length page_size, page, page_size⟩

/-- Translation of the search endpoint (main.py lines 199 to 228): FastAPI
rejects a query shorter than two characters, the endpoint rejects a scoped
search without a user, and then calls search_movies without passing the
user along. -/
def search_movies_endpoint {n : Nat} (cat : List (Movie n)) (s : PrefState)
    (query scope : String) (user_id : Option String) (page page_size : Nat) :
    Except String SearchResult :=
  if query.length < 2 then
    Except.error ("query too short")
  else if (scope == ("liked") || scope == ("disliked") || scope == ("recommended"))
      && user_id.isNone then
    Except.error ("User ID is required for scoped search")
  else
    Except.ok (search_movies cat s query scope page page_size)

/-- The number of preference documents carried by a (user, movie) pair
across both collections. -/
def edgeCount (s : PrefState) (u : String) (t : Int) : Nat :=
  s.likes.count ⟨u, t⟩ + s.dislikes.count ⟨u, t⟩

/-- The at-most-one-edge invariant of the preference store: no (user, movie)
pair carries more than one document across the two collections. The
quantification ranges over the stored documents, which keeps the predicate
decidable; a pair outside both collections has count zero anyway. -/
def AtMostOneEdge (s : PrefState) : Prop :=
  ∀ e ∈ s.likes ++ s.dislikes, edgeCount s e.user_id e.tmdb_id ≤ 1

instance {ε α : Type} [DecidableEq ε] [DecidableEq α] : DecidableEq (Except ε α) :=
  fun a b =>
    match a, b with
    | Except.ok x, Except.ok y => decidable_of_iff (x = y) (by simp)
    | Except.error x, Except.error y => decidable_of_iff (x = y) (by simp)
    | Except.ok _, Except.error _ => isFalse (by simp)
    | Except.error _, Except.ok _ => isFalse (by simp)

/-- Concrete zero vector of dimension one, for concrete instances. -/
def vec0 : Vec 1 := fun _ => 0

/-- Concrete unit vector of dimension one, for concrete instances. -/
def vec1 : Vec 1 := fun _ => 1

/-- Concrete catalog row with tmdb_id 1. -/
def movieA : Movie 1 :=
  { tmdb_id := 1, title := ("Matrix"), genres := ("Action"), poster_path := ("pa"),
    release_date := ("1999"), overview := ("oa"), vote_count := 100, vote_average := 8,
    vec := vec1 }

/-- Concrete catalog row with tmdb_id 2, sharing the feature vector of the
row with tmdb_id 1. -/
def movieB : Movie 1 :=
  { tmdb_id := 2, title := ("Matrix Reloaded"), genres := ("Action"), poster_path := ("pb"),
    release_date := ("2003"), overview := ("ob"), vote_count := 90, vote_average := 7,
    vec := vec1 }

/-- Concrete catalog row with tmdb_id 3. -/
def movieC : Movie 1 :=
  { tmdb_id := 3, title := ("Inception"), genres := ("Drama"), poster_path := ("pc"),
    release_date := ("2010"), overview := ("oc"), vote_count := 80, vote_average := 9,
    vec := vec0 }

/-- Concrete three row catalog, in catalog order movieA, movieB, movieC. -/
def catABC : List (Movie 1) := [movieA, movieB, movieC]

/-- Concrete similarity oracle assigning score zero to every pair. -/
def simZero : Vec 1 → Vec 1 → ℚ := fun _ _ => 0

/-- Concrete store where user u1 has liked tmdb_id 3 and nothing else. -/
def stateLikesC : PrefState :=
  { likes := [{ user_id := ("u1"), tmdb_id := 3 }], dislikes := [] }

/-- Concrete store where user u1 has liked tmdb_id 1 and nothing else. -/
def stateLikesA : PrefState :=
  { likes := [{ user_id := ("u1"), tmdb_id := 1 }], dislikes := [] }

/-- Concrete store where user u1 has no likes: the only like document
belongs to user u2, and u1 carries one dislike. -/
def stateNoLikes : PrefState :=
  { likes := [{ user_id := ("u2"), tmdb_id := 1 }],
    dislikes := [{ user_id := ("u1"), tmdb_id := 2 }] }

/-- Concrete store where user u1 has liked tmdb_id 1 and disliked
tmdb_id 3. -/
def stateLikeADislikeC : PrefState :=
  { likes := [{ user_id := ("u1"), tmdb_id := 1 }],
    dislikes := [{ user_id := ("u1"), tmdb_id := 3 }] }

/-- Concrete store where user u1 has liked tmdb_id 1 and disliked
tmdb_id 2. -/
def stateLikeADislikeB : PrefState :=
  { likes := [{ user_id := ("u1"), tmdb_id := 1 }],
    dislikes := [{ user_id := ("u1"), tmdb_id := 2 }] }

/-- Claim C2, counterexample: for user u1, who has zero LIKED edges in
stateNoLikes, recommend_content_based returns a successful empty result
(movies empty, total_results 0, total_pages 0) instead of failing with an
error; the claimed NoPreferenceData failure does not happen. -/
theorem recommend_no_likes_returns_ok :
    recommend_content_based simZero catABC stateNoLikes ("u1") 1 20 =
      Except.ok { movies := [], total_results := 0, total_pages := 0, page := 1, page_size := 20 } := by
  decide

/-- Claim C5, evaluation at the failing input: user u1 has a LIKED edge only
for tmdb_id 1, yet a search for Matrix with scope liked returns the movie
with tmdb_id 2 as well, because the scope branch of search_movies is a pass
statement; the second conjunct records that no LIKED edge exists for
(u1, 2). -/
theorem search_liked_scope_ignores_user :
    search_movies_endpoint catABC stateLikesA ("Matrix") ("liked") (some ("u1")) 1 20 =
      Except.ok
        { movies := [movieA.toRow, movieB.toRow], total_results := 2, total_pages := 1,
          page := 1, page_size := 20 }
    ∧ stateLikesA.likes.contains { user_id := ("u1"), tmdb_id := 2 } = false := by
  constructor
  · decide
  · decide

section StoreLemmas

instance (s : PrefState) : Decidable (AtMostOneEdge s) :=
  inferInstanceAs (Decidable (∀ e ∈ s.likes ++ s.dislikes, edgeCount s e.user_id e.tmdb_id ≤ 1))

lemma edgeCount_le_one {s : PrefState} (h : AtMostOneEdge s) (u : String) (t : Int) :
    edgeCount s u t ≤ 1 := by
  by_cases hm : (⟨u, t⟩ : Edge) ∈ s.likes ++ s.dislikes
  · simpa using h ⟨u, t⟩ hm
  · rw [List.mem_append, not_or] at hm
    unfold edgeCount
    rw [List.count_eq_zero.2 hm.1, List.count_eq_zero.2 hm.2]
    omega

lemma mem_upsertOne_self (l : List Edge) (u : String) (t : Int) :
    (⟨u, t⟩ : Edge) ∈ upsertOne l u t := by
  unfold upsertOne
  split
  · assumption
  · simp

lemma count_upsertOne_self (l : List Edge) (u : String) (t : Int) :
    (upsertOne l u t).count (⟨u, t⟩ : Edge) =
      if (⟨u, t⟩ : Edge) ∈ l then l.count (⟨u, t⟩ : Edge) else l.count (⟨u, t⟩ : Edge) + 1 := by
  by_cases hm : (⟨u, t⟩ : Edge) ∈ l
  · rw [if_pos hm]
    unfold upsertOne
    rw [if_pos hm]
  · rw [if_neg hm]
    unfold upsertOne
    rw [if_neg hm, List.count_append]
    have h1 : List.count (⟨u, t⟩ : Edge) [(⟨u, t⟩ : Edge)] = 1 := by
      simp [List.count_singleton]
    rw [h1]

lemma count_upsertOne_ne {e : Edge} {u : String} {t : Int} (h : e ≠ ⟨u, t⟩) (l : List Edge) :
    (upsertOne l u t).count e = l.count e := by
  unfold upsertOne
  split
  · rfl
  · rw [List.count_append]
    have h0 : List.count e [(⟨u, t⟩ : Edge)] = 0 := by
      rw [List.count_eq_zero]
      simp [h]
    rw [h0, Nat.add_zero]

lemma count_deleteOne_self (l : List Edge) (u : String) (t : Int) :
    (deleteOne l u t).count (⟨u, t⟩ : Edge) = l.count (⟨u, t⟩ : Edge) - 1 :=
  List.count_erase_self _ _

lemma count_deleteOne_ne {e : Edge} {u : String} {t : Int} (h : e ≠ ⟨u, t⟩) (l : List Edge) :
    (deleteOne l u t).count e = l.count e :=
  List.count_erase_of_ne h l

lemma upsertOne_idem (l : List Edge) (u : String) (t : Int) :
    upsertOne (upsertOne l u t) u t = upsertOne l u t := by
  conv_lhs => rw [upsertOne]
  rw [if_pos (mem_upsertOne_self l u t)]

lemma deleteOne_idem {l : List Edge} {u : String} {t : Int}
    (h : l.count (⟨u, t⟩ : Edge) ≤ 1) :
    deleteOne (deleteOne l u t) u t = deleteOne l u t := by
  have h0 : (deleteOne l u t).count (⟨u, t⟩ : Edge) = 0 := by
    rw [count_deleteOne_self]
    omega
  exact List.erase_of_not_mem (List.count_eq_zero.1 h0)

lemma like_state {n : Nat} (cat : List (Movie n)) (s : PrefState) (u : String) (t : Int) :
    (like_movie cat s u t).2 =
      if movieExists cat t then
        ({ likes := upsertOne s.likes u t, dislikes := deleteOne s.dislikes u t } : PrefState)
      else s := by
  by_cases hM : movieExists cat t = true
  · rw [if_pos hM]
    simp [like_movie, hM]
  · rw [if_neg hM]
    simp [like_movie, hM]

lemma dislike_state {n : Nat} (cat : List (Movie n)) (s : PrefState) (u : String) (t : Int) :
    (dislike_movie cat s u t).2 =
      if movieExists cat t then
        ({ likes := deleteOne s.likes u t, dislikes := upsertOne s.dislikes u t } : PrefState)
      else s := by
  by_cases hM : movieExists cat t = true
  · rw [if_pos hM]
    simp [dislike_movie, hM]
  · rw [if_neg hM]
    simp [dislike_movie, hM]

lemma undislike_state {n : Nat} (cat : List (Movie n)) (s : PrefState) (u : String) (t : Int) :
    (undislike_movie cat s u t).2 =
      if movieExists cat t then
        ({ s with dislikes := deleteOne s.dislikes u t } : PrefState)
      else s := by
  by_cases hM : movieExists cat t = true
  · rw [if_pos hM]
    by_cases hd : (⟨u, t⟩ : Edge) ∈ s.dislikes <;> simp [undislike_movie, hM, hd]
  · rw [if_neg hM]
    simp [undislike_movie, hM]

lemma edgeCount_like_le {n : Nat} (cat : List (Movie n)) {s : PrefState}
    (hInv : AtMostOneEdge s) (u : String) (t : Int) (a : String) (b : Int) :
    edgeCount (like_movie cat s u t).2 a b ≤ 1 := by
  rw [like_state]
  by_cases hM : movieExists cat t = true
  · rw [if_pos hM]
    unfold edgeCount
    show (upsertOne s.likes u t).count (⟨a, b⟩ : Edge)
        + (deleteOne s.dislikes u t).count (⟨a, b⟩ : Edge) ≤ 1
    by_cases he : (⟨a, b⟩ : Edge) = ⟨u, t⟩
    · rw [he, count_upsertOne_self, count_deleteOne_self]
      have h1 := edgeCount_le_one hInv u t
      unfold edgeCount at h1
      split
      · rename_i hmem
        omega
      · rename_i hnm
        rw [List.count_eq_zero.2 hnm] at h1 ⊢
        omega
    · rw [count_upsertOne_ne he, count_deleteOne_ne he]
      exact edgeCount_le_one hInv a b
  · rw [if_neg hM]
    exact edgeCount_le_one hInv a b

lemma edgeCount_dislike_le {n : Nat} (cat : List (Movie n)) {s : PrefState}
    (hInv : AtMostOneEdge s) (u : String) (t : Int) (a : String) (b : Int) :
    edgeCount (dislike_movie cat s u t).2 a b ≤ 1 := by
  rw [dislike_state]
  by_cases hM : movieExists cat t = true
  · rw [if_pos hM]
    unfold edgeCount
    show (deleteOne s.likes u t).count (⟨a, b⟩ : Edge)
        + (upsertOne s.dislikes u t).count (⟨a, b⟩ : Edge) ≤ 1
    by_cases he : (⟨a, b⟩ : Edge) = ⟨u, t⟩
    · rw [he, count_upsertOne_self, count_deleteOne_self]
      have h1 := edgeCount_le_one hInv u t
      unfold edgeCount at h1
      split
      · rename_i hmem
        omega
      · rename_i hnm
        rw [List.count_eq_zero.2 hnm] at h1 ⊢
        omega
    · rw [count_upsertOne_ne he, count_deleteOne_ne he]
      exact edgeCount_le_one hInv a b
  · rw [if_neg hM]
    exact edgeCount_le_one hInv a b

lemma edgeCount_undislike_le {n : Nat} (cat : List (Movie n)) {s : PrefState}
    (hInv : AtMostOneEdge s) (u : String) (t : Int) (a : String) (b : Int) :
    edgeCount (undislike_movie cat s u t).2 a b ≤ 1 := by
  rw [undislike_state]
  by_cases hM : movieExists cat t = true
  · rw [if_pos hM]
    unfold edgeCount
    show s.likes.count (⟨a, b⟩ : Edge) + (deleteOne s.dislikes u t).count (⟨a, b⟩ : Edge) ≤ 1
    by_cases he : (⟨a, b⟩ : Edge) = ⟨u, t⟩
    · rw [he, count_deleteOne_self]
      have h1 := edgeCount_le_one hInv u t
      unfold edgeCount at h1
      omega
    · rw [count_deleteOne_ne he]
      exact edgeCount_le_one hInv a b
  · rw [if_neg hM]
    exact edgeCount_le_one hInv a b

end StoreLemmas

/-- Claim C4: after like there is no DISLIKED edge for the pair, after
dislike there is no LIKED edge for the pair, and each of the three store
operations preserves the at-most-one-edge-per-pair invariant. -/
theorem like_dislike_exclusive {n : Nat} (cat : List (Movie n)) (s : PrefState)
    (u : String) (t : Int) (hInv : AtMostOneEdge s) :
    (movieExists cat t = true →
      (⟨u, t⟩ : Edge) ∉ ((like_movie cat s u t).2).dislikes
        ∧ (⟨u, t⟩ : Edge) ∉ ((dislike_movie cat s u t).2).likes)
    ∧ AtMostOneEdge (like_movie cat s u t).2
    ∧ AtMostOneEdge (dislike_movie cat s u t).2
    ∧ AtMostOneEdge (undislike_movie cat s u t).2 := by
  have hcl : s.likes.count (⟨u, t⟩ : Edge) ≤ 1 := by
    have := edgeCount_le_one hInv u t
    unfold edgeCount at this
    omega
  have hcd : s.dislikes.count (⟨u, t⟩ : Edge) ≤ 1 := by
    have := edgeCount_le_one hInv u t
    unfold edgeCount at this
    omega
  refine ⟨fun hM => ⟨?_, ?_⟩, fun e _ => ?_, fun e _ => ?_, fun e _ => ?_⟩
  · rw [like_state, if_pos hM]
    refine List.count_eq_zero.1 ?_
    rw [count_deleteOne_self]
    omega
  · rw [dislike_state, if_pos hM]
    refine List.count_eq_zero.1 ?_
    rw [count_deleteOne_self]
    omega
  · exact edgeCount_like_le cat hInv u t e.user_id e.tmdb_id
  · exact edgeCount_dislike_le cat hInv u t e.user_id e.tmdb_id
  · exact edgeCount_undislike_le cat hInv u t e.user_id e.tmdb_id

/-- Claim C4, witness: the store where u1 likes tmdb_id 1 and dislikes
tmdb_id 2 satisfies the invariant, and the conclusion holds there for the
operation arguments (u1, 2). -/
theorem like_dislike_exclusive_witness :
    AtMostOneEdge stateLikeADislikeB
    ∧ ((movieExists catABC (2 : Int) = true →
        (⟨("u1"), (2 : Int)⟩ : Edge) ∉ ((like_movie catABC stateLikeADislikeB ("u1") 2).2).dislikes
          ∧ (⟨("u1"), (2 : Int)⟩ : Edge) ∉ ((dislike_movie catABC stateLikeADislikeB ("u1") 2).2).likes)
      ∧ AtMostOneEdge (like_movie catABC stateLikeADislikeB ("u1") 2).2
      ∧ AtMostOneEdge (dislike_movie catABC stateLikeADislikeB ("u1") 2).2
      ∧ AtMostOneEdge (undislike_movie catABC stateLikeADislikeB ("u1") 2).2) :=
  ⟨by decide, like_dislike_exclusive catABC stateLikeADislikeB ("u1") 2 (by decide)⟩

/-- Claim C10: with the invariant in force and the movie in the catalog,
applying like twice leaves the same store as applying it once, and likewise
for dislike. -/
theorem like_dislike_idempotent {n : Nat} (cat : List (Movie n)) (s : PrefState)
    (u : String) (t : Int) (hInv : AtMostOneEdge s) (hM : movieExists cat t = true) :
    (like_movie cat (like_movie cat s u t).2 u t).2 = (like_movie cat s u t).2
    ∧ (dislike_movie cat (dislike_movie cat s u t).2 u t).2 = (dislike_movie cat s u t).2 := by
  have hcl : s.likes.count (⟨u, t⟩ : Edge) ≤ 1 := by
    have := edgeCount_le_one hInv u t
    unfold edgeCount at this
    omega
  have hcd : s.dislikes.count (⟨u, t⟩ : Edge) ≤ 1 := by
    have := edgeCount_le_one hInv u t
    unfold edgeCount at this
    omega
  constructor
  · rw [like_state cat s, if_pos hM, like_state, if_pos hM]
    simp only
    rw [upsertOne_idem, deleteOne_idem hcd]
  · rw [dislike_state cat s, if_pos hM, dislike_state, if_pos hM]
    simp only
    rw [upsertOne_idem, deleteOne_idem hcl]

/-- Claim C10, witness: the invariant holds in the concrete store where u1
likes tmdb_id 1 and dislikes tmdb_id 2, the movie with tmdb_id 2 is in the
catalog, and both idempotence equations hold there. -/
theorem like_dislike_idempotent_witness :
    AtMostOneEdge stateLikeADislikeB ∧ movieExists catABC (2 : Int) = true
    ∧ ((like_movie catABC (like_movie catABC stateLikeADislikeB ("u1") 2).2 ("u1") 2).2 =
        (like_movie catABC stateLikeADislikeB ("u1") 2).2
      ∧ (dislike_movie catABC (dislike_movie catABC stateLikeADislikeB ("u1") 2).2 ("u1") 2).2 =
        (dislike_movie catABC stateLikeADislikeB ("u1") 2).2) :=
  ⟨by decide, by decide,
    like_dislike_idempotent catABC stateLikeADislikeB ("u1") 2 (by decide) (by decide)⟩

/-- Claim C9: for a tmdb_id missing from the catalog, each of like, dislike
and undislike returns the MovieNotFound error and leaves the store
unchanged; the validation precedes every mutation. -/
theorem unknown_id_errors {n : Nat} (cat : List (Movie n)) (s : PrefState)
    (u : String) (t : Int) (h : movieExists cat t = false) :
    like_movie cat s u t = (Except.error tmdbNotFoundMsg, s)
    ∧ dislike_movie cat s u t = (Except.error tmdbNotFoundMsg, s)
    ∧ undislike_movie cat s u t = (Except.error tmdbNotFoundMsg, s) := by
  refine ⟨?_, ?_, ?_⟩ <;> simp [like_movie, dislike_movie, undislike_movie, h]

/-- Claim C9, witness: tmdb_id 99 is not in the concrete catalog, and all
three operations return the error with the store unchanged. -/
theorem unknown_id_errors_witness :
    movieExists catABC (99 : Int) = false
    ∧ (like_movie catABC stateLikesA ("u1") 99 = (Except.error tmdbNotFoundMsg, stateLikesA)
      ∧ dislike_movie catABC stateLikesA ("u1") 99 = (Except.error tmdbNotFoundMsg, stateLikesA)
      ∧ undislike_movie catABC stateLikesA ("u1") 99 = (Except.error tmdbNotFoundMsg, stateLikesA)) :=
  ⟨by decide, unknown_id_errors catABC stateLikesA ("u1") 99 (by decide)⟩

/-- Claim C8: undisliking a catalog movie that carries no dislike document
for the user returns a normal informational ok value, not an error, and
leaves the store exactly unchanged. -/
theorem undislike_absent_is_informational {n : Nat} (cat : List (Movie n)) (s : PrefState)
    (u : String) (t : Int) (hM : movieExists cat t = true)
    (hd : (⟨u, t⟩ : Edge) ∉ s.dislikes) :
    undislike_movie cat s u t =
      (Except.ok (("info: ") ++ movieTitle cat t ++ (" was not in the disliked list of user ") ++ u),
        s) := by
  have herase : deleteOne s.dislikes u t = s.dislikes := List.erase_of_not_mem hd
  simp [undislike_movie, hM, hd, herase]

/-- Claim C8, witness: in the concrete store u1 has no dislike document for
tmdb_id 2, which is in the catalog, and undislike returns the informational
ok value with the store unchanged. -/
theorem undislike_absent_is_informational_witness :
    movieExists catABC (2 : Int) = true
    ∧ (⟨("u1"), (2 : Int)⟩ : Edge) ∉ stateLikesA.dislikes
    ∧ undislike_movie catABC stateLikesA ("u1") 2 =
      (Except.ok (("info: ") ++ movieTitle catABC 2 ++ (" was not in the disliked list of user ") ++ ("u1")),
        stateLikesA) :=
  ⟨by decide, by decide,
    undislike_absent_is_informational catABC stateLikesA ("u1") 2 (by decide) (by decide)⟩

/-- Claim C2, amended behaviour: for every user with zero LIKED edges,
recommend_content_based returns the successful empty result with
total_results 0 and total_pages 0, rather than failing with an error. -/
theorem recommend_no_likes_empty {n : Nat} (sim : Vec n → Vec n → ℚ) (cat : List (Movie n))
    (s : PrefState) (u : String) (page psz : Nat)
    (h : likedTmdbIds s (some u) = []) :
    recommend_content_based sim cat s u page psz =
      Except.ok { movies := [], total_results := 0, total_pages := 0, page := page, page_size := psz } := by
  simp [recommend_content_based, h]

/-- Claim C2, amended behaviour, witness: user u1 has zero LIKED edges in
the concrete store, and recommend returns the successful empty result. -/
theorem recommend_no_likes_empty_witness :
    likedTmdbIds stateNoLikes (some ("u1")) = []
    ∧ recommend_content_based simZero catABC stateNoLikes ("u1") 1 20 =
      Except.ok { movies := [], total_results := 0, total_pages := 0, page := 1, page_size := 20 } :=
  ⟨by decide, recommend_no_likes_empty simZero catABC stateNoLikes ("u1") 1 20 (by decide)⟩

section PipelineLemmas

lemma contains_iff_mem {α : Type} [BEq α] [LawfulBEq α] {x : α} {l : List α} :
    l.contains x = true ↔ x ∈ l :=
  List.elem_iff

lemma paginate_sublist {α : Type} (page psz : Nat) (l : List α) :
    List.Sublist (paginate page psz l) l :=
  (List.take_sublist _ _).trans (List.drop_sublist _ _)

lemma mem_sortByScoreDesc {n : Nat} {p : Movie n × ℚ} {l : List (Movie n × ℚ)} :
    p ∈ sortByScoreDesc l ↔ p ∈ l := by
  unfold sortByScoreDesc
  rw [List.mem_reverse, List.mem_insertionSort, List.mem_reverse]

lemma sortByScoreDesc_pairwise {n : Nat} (l : List (Movie n × ℚ)) :
    (sortByScoreDesc l).Pairwise (fun a b => b.2 ≤ a.2) := by
  unfold sortByScoreDesc
  rw [List.pairwise_reverse]
  haveI : IsTotal (Movie n × ℚ) (fun a b => a.2 ≤ b.2) := ⟨fun a b => le_total a.2 b.2⟩
  haveI : IsTrans (Movie n × ℚ) (fun a b => a.2 ≤ b.2) := ⟨fun _ _ _ h1 h2 => le_trans h1 h2⟩
  exact List.sorted_insertionSort _ l.reverse

end PipelineLemmas

/-- Claim C1: for every similarity oracle, catalog, store, user and page
request, no row returned by recommend_content_based carries a tmdb_id from
the LIKED set or from the DISLIKED set of that user. -/
theorem recommend_excludes_rated {n : Nat} (sim : Vec n → Vec n → ℚ) (cat : List (Movie n))
    (s : PrefState) (u : String) (page psz : Nat) (r : MovieRow × ℚ)
    (hr : r ∈ resultMovies (recommend_content_based sim cat s u page psz)) :
    r.1.tmdb_id ∉ likedTmdbIds s (some u) ∧ r.1.tmdb_id ∉ dislikedTmdbIds s (some u) := by
  simp only [recommend_content_based] at hr
  by_cases hE : (likedTmdbIds s (some u)).isEmpty = true
  · rw [if_pos hE] at hr
    simp [resultMovies] at hr
  · rw [if_neg hE] at hr
    simp only [resultMovies] at hr
    obtain ⟨p, hp, hfp⟩ := List.mem_map.1 hr
    have hps : p ∈ recommendCandidates sim cat (likedTmdbIds s (some u)) (dislikedTmdbIds s (some u)) :=
      (paginate_sublist _ _ _).subset hp
    have h2 : p ∈ scoredRemaining sim cat (likedTmdbIds s (some u)) (dislikedTmdbIds s (some u)) := by
      have := hps
      unfold recommendCandidates at this
      exact mem_sortByScoreDesc.1 this
    have h3 := List.of_mem_filter h2
    rw [Bool.not_eq_true'] at h3
    have h4 : p.1.tmdb_id ∉ likedTmdbIds s (some u) ++ dislikedTmdbIds s (some u) := by
      intro hmem
      rw [contains_iff_mem.2 hmem] at h3
      exact Bool.noConfusion h3
    rw [List.mem_append, not_or] at h4
    have hid : r.1.tmdb_id = p.1.tmdb_id := by
      rw [← hfp]
      rfl
    rw [hid]
    exact h4

/-- Claim C1, witness: in the concrete store the user u1 has liked tmdb_id 3
and disliked nothing; the returned row for movieB is in the recommendation
output and its tmdb_id lies in neither preference set. -/
theorem recommend_excludes_rated_witness :
    (movieB.toRow, (0 : ℚ)) ∈ resultMovies (recommend_content_based simZero catABC stateLikesC ("u1") 1 20)
    ∧ ((movieB.toRow, (0 : ℚ)).1.tmdb_id ∉ likedTmdbIds stateLikesC (some ("u1"))
      ∧ (movieB.toRow, (0 : ℚ)).1.tmdb_id ∉ dislikedTmdbIds stateLikesC (some ("u1"))) :=
  ⟨by decide,
    recommend_excludes_rated simZero catABC stateLikesC ("u1") 1 20 (movieB.toRow, (0 : ℚ))
      (by decide)⟩

/-- Claim C6: every recommendation output is sorted by score in descending
order, and two remaining rows with equal scores appear in the ranked
candidate list in their original catalog order: the descending sort is
stable, since pandas nargsort reverses the rows before its stable
ascending argsort and reverses the resulting indexer afterwards. -/
theorem recommend_sorted_desc_stable {n : Nat} (sim : Vec n → Vec n → ℚ)
    (cat : List (Movie n)) (s : PrefState) (u : String) (page psz : Nat) :
    (resultMovies (recommend_content_based sim cat s u page psz)).Pairwise
      (fun a b => b.2 ≤ a.2)
    ∧ (∀ a b : Movie n × ℚ,
        List.Sublist [a, b]
          (scoredRemaining sim cat (likedTmdbIds s (some u)) (dislikedTmdbIds s (some u))) →
        a.2 = b.2 →
        List.Sublist [a, b]
          (recommendCandidates sim cat (likedTmdbIds s (some u)) (dislikedTmdbIds s (some u)))) := by
  constructor
  · simp only [recommend_content_based]
    by_cases hE : (likedTmdbIds s (some u)).isEmpty = true
    · rw [if_pos hE]
      simp [resultMovies]
    · rw [if_neg hE]
      simp only [resultMovies]
      rw [List.pairwise_map]
      exact List.Pairwise.sublist (paginate_sublist _ _ _) (sortByScoreDesc_pairwise _)
  · intro a b hab heq
    unfold recommendCandidates sortByScoreDesc
    have h0 : List.Sublist [b, a]
        (scoredRemaining sim cat (likedTmdbIds s (some u)) (dislikedTmdbIds s (some u))).reverse := by
      have h01 := hab.reverse
      simpa using h01
    have h1 : List.Sublist [b, a]
        ((scoredRemaining sim cat (likedTmdbIds s (some u)) (dislikedTmdbIds s (some u))).reverse.insertionSort
          (fun a b => a.2 ≤ b.2)) :=
      List.pair_sublist_insertionSort (le_of_eq heq.symm) h0
    have h2 := h1.reverse
    simpa using h2

/-- Claim C6, witness: movieA and movieB tie (the similarity oracle is
constant and the two rows share a feature vector), the pair appears in
catalog order in the remaining rows and stays in catalog order in the
ranked candidates. -/
theorem recommend_sorted_desc_stable_witness :
    List.Sublist [(movieA, (0 : ℚ)), (movieB, (0 : ℚ))]
      (scoredRemaining simZero catABC (likedTmdbIds stateLikesC (some ("u1")))
        (dislikedTmdbIds stateLikesC (some ("u1"))))
    ∧ (movieA, (0 : ℚ)).2 = (movieB, (0 : ℚ)).2
    ∧ List.Sublist [(movieA, (0 : ℚ)), (movieB, (0 : ℚ))]
      (recommendCandidates simZero catABC (likedTmdbIds stateLikesC (some ("u1")))
        (dislikedTmdbIds stateLikesC (some ("u1")))) :=
  ⟨by decide, by decide,
    (recommend_sorted_desc_stable simZero catABC stateLikesC ("u1") 1 20).2
      (movieA, (0 : ℚ)) (movieB, (0 : ℚ)) (by decide) (by decide)⟩

section ProfileLemmas

lemma rowsWithIds_nil {n : Nat} (cat : List (Movie n)) : rowsWithIds cat [] = [] := by
  simp [rowsWithIds]

lemma rowsWithIds_ne_nil {n : Nat} {cat : List (Movie n)} {ids : List Int} {t : Int}
    (ht : t ∈ ids) (hM : movieExists cat t = true) : rowsWithIds cat ids ≠ [] := by
  unfold movieExists at hM
  rw [List.any_eq_true] at hM
  obtain ⟨m, hm, hmt⟩ := hM
  rw [beq_iff_eq] at hmt
  intro hnil
  have hmem : m ∈ rowsWithIds cat ids := by
    rw [rowsWithIds, List.mem_filter]
    exact ⟨hm, by rw [hmt]; exact contains_iff_mem.2 ht⟩
  rw [hnil] at hmem
  exact List.not_mem_nil m hmem

end ProfileLemmas

/-- Claim C3: for a user with a nonempty LIKED set whose DISLIKED ids all
lie in the catalog, the profile vector computed by the pipeline equals the
centroid of the liked feature vectors, minus the centroid of the disliked
feature vectors exactly when the DISLIKED set is nonempty. -/
theorem profile_is_centroid_difference {n : Nat} (cat : List (Movie n)) (s : PrefState)
    (u : String) (hL : likedTmdbIds s (some u) ≠ [])
    (hD : ∀ t ∈ dislikedTmdbIds s (some u), movieExists cat t = true) :
    userProfile cat (likedTmdbIds s (some u)) (dislikedTmdbIds s (some u)) =
      if dislikedTmdbIds s (some u) = [] then
        centroidOf cat (likedTmdbIds s (some u))
      else fun i =>
        centroidOf cat (likedTmdbIds s (some u)) i
          - centroidOf cat (dislikedTmdbIds s (some u)) i := by
  by_cases hDe : dislikedTmdbIds s (some u) = []
  · rw [if_pos hDe]
    unfold userProfile centroidOf
    rw [hDe, rowsWithIds_nil]
    simp
  · rw [if_neg hDe]
    obtain ⟨t, ht⟩ := List.exists_mem_of_ne_nil _ hDe
    have hrows : rowsWithIds cat (dislikedTmdbIds s (some u)) ≠ [] :=
      rowsWithIds_ne_nil ht (hD t ht)
    have hvecs : ((rowsWithIds cat (dislikedTmdbIds s (some u))).map Movie.vec).isEmpty = false := by
      rw [List.isEmpty_eq_false]
      simp [hrows]
    unfold userProfile centroidOf
    simp [hvecs]

/-- Claim C3, witness: in the concrete store u1 has liked tmdb_id 1 and
disliked tmdb_id 3, which is in the catalog, and the profile equation holds
there. -/
theorem profile_is_centroid_difference_witness :
    likedTmdbIds stateLikeADislikeC (some ("u1")) ≠ []
    ∧ (∀ t ∈ dislikedTmdbIds stateLikeADislikeC (some ("u1")), movieExists catABC t = true)
    ∧ userProfile catABC (likedTmdbIds stateLikeADislikeC (some ("u1")))
        (dislikedTmdbIds stateLikeADislikeC (some ("u1"))) =
      (if dislikedTmdbIds stateLikeADislikeC (some ("u1")) = [] then
        centroidOf catABC (likedTmdbIds stateLikeADislikeC (some ("u1")))
      else fun i =>
        centroidOf catABC (likedTmdbIds stateLikeADislikeC (some ("u1"))) i
          - centroidOf catABC (dislikedTmdbIds stateLikeADislikeC (some ("u1"))) i) :=
  ⟨by decide, by decide,
    profile_is_centroid_difference catABC stateLikeADislikeC ("u1") (by decide) (by decide)⟩

section PaginationLemmas

lemma totalPagesOf_ceil (N psz : Nat) (hs : 0 < psz) :
    (totalPagesOf N psz : ℤ) = Int.ceil ((N : ℚ) / (psz : ℚ)) := by
  by_cases hN : 0 < N
  · unfold totalPagesOf
    rw [if_pos hN]
    set z := (N + psz - 1) / psz with hz
    have hz1 : z * psz ≤ N + psz - 1 := Nat.div_mul_le_self _ _
    have hdm := Nat.div_add_mod (N + psz - 1) psz
    have hmod := Nat.mod_lt (N + psz - 1) hs
    have hx : N + psz - 1 < z * psz + psz := by
      calc N + psz - 1 = psz * z + (N + psz - 1) % psz := hdm.symm
        _ < psz * z + psz := Nat.add_lt_add_left hmod _
        _ = z * psz + psz := by ring
    have hz2 : N ≤ z * psz := by
      have h5 : N - 1 + psz < z * psz + psz := by
        have he : N - 1 + psz = N + psz - 1 := by omega
        rw [he]
        exact hx
      have h6 : N - 1 < z * psz := Nat.lt_of_add_lt_add_right h5
      exact Nat.le_of_pred_lt h6
    have hpq : (0 : ℚ) < (psz : ℚ) := by exact_mod_cast hs
    symm
    rw [Int.ceil_eq_iff]
    have h7 : (z : ℚ) * psz ≤ (N : ℚ) + psz - 1 := by
      have hcast : ((z * psz : Nat) : ℚ) ≤ ((N + psz - 1 : Nat) : ℚ) := by exact_mod_cast hz1
      rw [Nat.cast_sub (by omega)] at hcast
      push_cast at hcast
      linarith
    constructor
    · rw [lt_div_iff hpq]
      push_cast
      have h8 : ((z : ℚ) - 1) * psz = (z : ℚ) * psz - psz := by ring
      rw [h8]
      linarith
    · rw [div_le_iff hpq]
      push_cast
      exact_mod_cast hz2
  · have h0 : N = 0 := by omega
    subst h0
    simp [totalPagesOf]

lemma totalPagesOf_succ {N psz : Nat} (hs : 0 < psz) (hN : 0 < N) :
    totalPagesOf N psz = totalPagesOf (N - psz) psz + 1 := by
  unfold totalPagesOf
  rw [if_pos hN]
  by_cases hcase : psz < N
  · rw [if_pos (by omega : 0 < N - psz)]
    have h1 : N + psz - 1 = (N - psz + psz - 1) + psz := by omega
    rw [h1, Nat.add_div_right _ hs]
  · rw [if_neg (by omega : ¬ 0 < N - psz)]
    have h2 : (N + psz - 1) / psz = 1 := Nat.div_eq_of_lt_le (by omega) (by omega)
    omega

lemma paginate_one {α : Type} (psz : Nat) (l : List α) : paginate 1 psz l = l.take psz := by
  simp [paginate]

lemma paginate_shift {α : Type} (k psz : Nat) (l : List α) :
    paginate (k + 2) psz l = paginate (k + 1) psz (l.drop psz) := by
  unfold paginate
  rw [List.drop_drop]
  have h1 : k + 2 - 1 = k + 1 := by omega
  have h2 : k + 1 - 1 = k := by omega
  rw [h1, h2]
  have h3 : psz + k * psz = (k + 1) * psz := by ring
  rw [h3]

lemma join_paginate {α : Type} (psz : Nat) (hs : 0 < psz) :
    ∀ (N : Nat) (l : List α), l.length ≤ N →
      ((List.range (totalPagesOf l.length psz)).map (fun k => paginate (k + 1) psz l)).flatten = l := by
  intro N
  induction N with
  | zero =>
    intro l hl
    have h0 : l = [] := List.length_eq_zero.1 (Nat.le_zero.1 hl)
    subst h0
    simp [totalPagesOf]
  | succ N ih =>
    intro l hl
    by_cases h0 : l = []
    · subst h0
      simp [totalPagesOf]
    · have hlen : 0 < l.length := List.length_pos.2 h0
      rw [totalPagesOf_succ hs hlen, List.range_succ_eq_map]
      simp only [List.map_cons, List.flatten_cons, List.map_map, Nat.zero_add]
      have hmap : (List.range (totalPagesOf (l.length - psz) psz)).map
          ((fun k => paginate (k + 1) psz l) ∘ Nat.succ)
          = (List.range (totalPagesOf (l.length - psz) psz)).map
            (fun k => paginate (k + 1) psz (l.drop psz)) := by
        apply List.map_congr_left
        intro k _
        show paginate (k + 1 + 1) psz l = paginate (k + 1) psz (l.drop psz)
        exact paginate_shift k psz l
      have hdl : (l.drop psz).length = l.length - psz := List.length_drop psz l
      rw [hmap, paginate_one, ← hdl, ih (l.drop psz) (by omega)]
      exact List.take_append_drop psz l

end PaginationLemmas

/-- Claim C7: for every result list, page at least 1 and positive page
size, the page slice consists exactly of the rows at positions from
(page-1)*page_size up to page*page_size, the reported page count is the
ceiling of length over page size (0 for an empty list), concatenating all
pages in order reproduces the list with each row exactly once, and the
search operation reports total_results equal to the length of its filtered
list and returns the page slice of it. -/
theorem pagination_correct (l : List (MovieRow × ℚ)) (page psz : Nat)
    (hp : 1 ≤ page) (hs : 0 < psz) :
    (∀ i : Nat, (paginate page psz l)[i]? =
      if i < psz then l[(page - 1) * psz + i]? else none)
    ∧ (totalPagesOf l.length psz : ℤ) = Int.ceil ((l.length : ℚ) / (psz : ℚ))
    ∧ (l.length = 0 → totalPagesOf l.length psz = 0)
    ∧ ((List.range (totalPagesOf l.length psz)).map (fun k => paginate (k + 1) psz l)).flatten = l
    ∧ (∀ {n : Nat} (cat : List (Movie n)) (s : PrefState) (q sc : String),
        (search_movies cat s q sc page psz).total_results = (searchScoped cat s q sc).length
        ∧ (search_movies cat s q sc page psz).movies =
          (paginate page psz (searchScoped cat s q sc)).map Movie.toRow) := by
  refine ⟨?_, totalPagesOf_ceil _ _ hs, ?_, join_paginate psz hs l.length l le_rfl, ?_⟩
  · intro i
    unfold paginate
    rw [List.getElem?_take]
    split
    · rw [List.getElem?_drop]
    · rfl
  · intro h0
    rw [h0]
    simp [totalPagesOf]
  · intro n cat s q sc
    exact ⟨rfl, rfl⟩

/-- Concrete result list for the pagination witness. -/
def rowsC7 : List (MovieRow × ℚ) := [(movieA.toRow, 5), (movieB.toRow, 3), (movieC.toRow, 1)]

/-- Claim C7, witness: page 2 of size 2 over the concrete three row list. -/
theorem pagination_correct_witness :
    1 ≤ 2 ∧ 0 < 2
    ∧ ((∀ i : Nat, (paginate 2 2 rowsC7)[i]? =
        if i < 2 then rowsC7[(2 - 1) * 2 + i]? else none)
      ∧ (totalPagesOf rowsC7.length 2 : ℤ) = Int.ceil ((rowsC7.length : ℚ) / (((2 : Nat)) : ℚ))
      ∧ (rowsC7.length = 0 → totalPagesOf rowsC7.length 2 = 0)
      ∧ ((List.range (totalPagesOf rowsC7.length 2)).map (fun k => paginate (k + 1) 2 rowsC7)).flatten = rowsC7
      ∧ (∀ {n : Nat} (cat : List (Movie n)) (s : PrefState) (q sc : String),
          (search_movies cat s q sc 2 2).total_results = (searchScoped cat s q sc).length
          ∧ (search_movies cat s q sc 2 2).movies =
            (paginate 2 2 (searchScoped cat s q sc)).map Movie.toRow)) :=
  ⟨by decide, by decide, pagination_correct rowsC7 2 2 (by decide) (by decide)⟩

end RecommenderApi
